import Mathlib

/-!
Verification development for the frontier-exploration mission controller
(`src/explore_server.cpp`).

The development shallowly embeds the two pieces of the program the
specification talks about:

* `pointInPolygon` — the pure even-odd ray-casting containment test
  (source lines 200-209), over exact rational coordinates;
* `executeCB` — the mission controller (source lines 45-195), embedded as a
  deterministic function of an oracle `Env` describing the responses of the
  external collaborators (boundary service, move_base navigation, frontier
  service, pose source) and of the two middleware signals
  (`ros::ok()`, `isPreemptRequested()`).

The controller model emits a trace of externally visible events
(collaborator calls, inter-attempt sleeps, terminal `setSucceeded` /
`setAborted` reports).  Time is the number of events emitted so far: each
blocking interaction appends one event, and the middleware signals are
sampled at the current trace length, so a signal can change "during" a
sleep and be observed at the next loop-condition check, exactly as in the
source.  Per-collaborator responses are indexed by the number of calls to
that collaborator made so far.  The explore loop carries explicit fuel
because the source loop need not terminate; fuel exhaustion is reported as
a distinguished, non-source result kind.
-/

/-- A 2D point with exact rational coordinates.  Mirrors the x/y fields of
the geometry messages used by the source; the z coordinate is omitted
because neither the containment test nor the controller ever reads it. -/
structure Point where
  x : ℚ
  y : ℚ
deriving DecidableEq, Repr

/-- The y-straddle guard of the ray-casting test: exactly one of the two
edge endpoints lies strictly above the horizontal line through the query
point.  Source: `(polygon.points[i].y > point.y) != (polygon.points[j].y > point.y)`. -/
def yStraddles (point pi pj : Point) : Bool :=
  decide (pi.y > point.y) != decide (pj.y > point.y)

/-- One edge of the crossing test, source line 203-204: the y-straddle
guard, and the query point lying strictly left of the edge's crossing of
the horizontal line `y = point.y`, computed by linear interpolation. -/
def crossesEdge (point pi pj : Point) : Bool :=
  yStraddles point pi pj &&
  decide (point.x < (pj.x - pi.x) * (point.y - pi.y) / (pj.y - pi.y) + pi.x)

/-- The previous index, wrapping: the source's `j`, initialised to
`size-1` and thereafter the previous `i`. -/
def prevIdx (n i : Nat) : Nat := if i = 0 then n - 1 else i - 1

/-- Even-odd ray-casting containment test, source lines 200-209: count the
edges `(points[i], points[j])` (with `j` the previous wrapping index)
satisfying `crossesEdge`; the point is inside iff the count is odd
(`bool(cross % 2)`). -/
def pointInPolygon (point : Point) (polygon : List Point) : Bool :=
  let n := polygon.length
  let cross := (List.range n).foldl
    (fun c i =>
      if crossesEdge point (polygon.getD i ⟨0, 0⟩) (polygon.getD (prevIdx n i) ⟨0, 0⟩)
      then c + 1 else c) 0
  cross % 2 == 1

/-- Spec-side crossing condition, written from the specification's words
(§4.1): the point's y-coordinate lies strictly between the endpoint
y-coordinates — one endpoint's y strictly above, the other's at most
`point.y` — and `point.x` is less than the x-coordinate at which the edge
crosses the horizontal line `y = point.y`, by linear interpolation between
the endpoints. -/
def specCrosses (point pi pj : Point) : Bool :=
  (decide (pi.y > point.y ∧ pj.y ≤ point.y) || decide (pj.y > point.y ∧ pi.y ≤ point.y)) &&
  decide (point.x < (pj.x - pi.x) * (point.y - pi.y) / (pj.y - pi.y) + pi.x)

/-- Spec-side crossing count, written from the specification's words
(§4.1): the number of polygon edges `(p i, p j)`, `j` the previous index
wrapping, that satisfy the spec's crossing condition. -/
def specCrossCount (point : Point) (polygon : List Point) : Nat :=
  (List.range polygon.length).countP
    (fun i => specCrosses point (polygon.getD i ⟨0, 0⟩)
      (polygon.getD ((i + polygon.length - 1) % polygon.length) ⟨0, 0⟩))

/-- A pose: 2D position, yaw orientation, and reference frame.  Mirrors
the `PoseStamped` data the controller actually reads: position, the
orientation yaw (only ever written, with 0, for the center pose), and
`header.frame_id`. -/
structure Pose where
  position : Point
  yaw : ℚ
  frame : String
deriving DecidableEq, Repr

/-- The immutable mission goal (`ExploreTaskGoal`): the boundary polygon
with its reference frame, and the exploration center point with its
reference frame. -/
structure Goal where
  explore_boundary : List Point
  boundary_frame : String
  center_point : Point
  center_frame : String

/-- A terminal mission outcome, as reported through the action server. -/
inductive Outcome where
  | succeeded
  | aborted
deriving DecidableEq, Repr

/-- Externally visible events of one mission execution, in order:
a boundary-service call (`updateBoundaryPolygon.call`, with its result),
a navigation request (`sendGoalAndWait`, with its target and whether the
terminal state was SUCCEEDED), a frontier-service call
(`getNextFrontier.call`, with its result), an inter-attempt sleep
(`ros::Duration(0.5).sleep()`), and a terminal report
(`setSucceeded` / `setAborted`). -/
inductive Event where
  | callBoundary (ok : Bool)
  | callNav (target : Pose) (ok : Bool)
  | callFrontier (ok : Bool)
  | sleep
  | report (o : Outcome)
deriving DecidableEq, Repr

/-- True exactly on boundary-service call events. -/
def isBoundaryCall : Event → Bool
  | .callBoundary _ => true
  | _ => false

/-- True exactly on navigation request events. -/
def isNavCall : Event → Bool
  | .callNav _ _ => true
  | _ => false

/-- True exactly on frontier-service call events. -/
def isFrontierCall : Event → Bool
  | .callFrontier _ => true
  | _ => false

/-- Number of boundary-service calls in a trace. -/
def countB (tr : List Event) : Nat := tr.countP isBoundaryCall

/-- Number of navigation requests in a trace. -/
def countNav (tr : List Event) : Nat := tr.countP isNavCall

/-- Number of frontier-service calls in a trace. -/
def countF (tr : List Event) : Nat := tr.countP isFrontierCall

/-- The terminal outcomes reported in a trace, in order. -/
def reports (tr : List Event) : List Outcome :=
  tr.filterMap fun e =>
    match e with
    | .report o => some o
    | _ => none

/-- Oracle for one mission execution: the middleware signals as functions
of time (= number of events emitted so far), the results of the three
availability waits, the per-call responses of each collaborator (indexed
by how many calls to that collaborator were made before), the pose source
(indexed by explore-loop iteration), and the transform collaborator. -/
structure Env where
  rosOk : Nat → Bool
  preempt : Nat → Bool
  boundaryWait : Bool
  boundaryCall : Nat → Bool
  moveBaseWait : Bool
  navCall : Nat → Bool
  frontierWait : Bool
  frontierOk : Nat → Bool
  frontierPose : Nat → Pose
  robotPose : Nat → Pose
  transform : Pose → String → Pose

/-- Exit status of the boundary-setting retry loop (source lines 59-76):
`brk` = successful call broke out of the loop; `aborted` = retry budget
exhausted (or shutdown after a failure), `setAborted` called and the
callback returned; `fellThrough` = the loop condition
`ros::ok() && !as_.isPreemptRequested()` was false, so control fell
through to the rest of the callback without any report. -/
inductive BoundExit where
  | brk
  | aborted
  | fellThrough
deriving DecidableEq, Repr

/-- The boundary-setting retry loop, source lines 59-76, with the retry
counter as the recursion parameter (the source initialises it to 5).  The
returned list holds only the newly emitted events; `tr` is the prior
trace, consulted for the current time and call indices.  The `0` pattern
is the state in which the source's decremented counter would hit 0 on the
next failure. -/
def setBoundaryLoop (env : Env) : Nat → List Event → List Event × BoundExit
  | 0, tr =>
    if env.rosOk tr.length && !env.preempt tr.length then
      if env.boundaryCall (countB tr) then ([.callBoundary true], .brk)
      else ([.callBoundary false, .report .aborted], .aborted)
    else ([], .fellThrough)
  | r + 1, tr =>
    if env.rosOk tr.length && !env.preempt tr.length then
      if env.boundaryCall (countB tr) then ([.callBoundary true], .brk)
      else if r = 0 || !env.rosOk (tr.length + 1) then
        ([.callBoundary false, .report .aborted], .aborted)
      else
        let res := setBoundaryLoop env r (tr ++ [.callBoundary false, .sleep])
        (.callBoundary false :: .sleep :: res.1, res.2)
    else ([], .fellThrough)

/-- Exit status of a navigation retry loop (source lines 92-111 and
172-192): `success` = SUCCEEDED terminal state broke out of the loop;
`aborted` = retry budget exhausted (or shutdown after a failure),
`setAborted` called and the callback returned; `fellThrough` = the loop
condition `ros::ok()` was false. -/
inductive MoveExit where
  | success
  | aborted
  | fellThrough
deriving DecidableEq, Repr

/-- A navigation retry loop, source lines 92-111 (move to center) and
172-192 (move towards the goal pose); both loops have this exact shape,
differing only in the target and in what the caller does on success. -/
def moveLoop (env : Env) (target : Pose) : Nat → List Event → List Event × MoveExit
  | 0, tr =>
    if env.rosOk tr.length then
      if env.navCall (countNav tr) then ([.callNav target true], .success)
      else ([.callNav target false, .report .aborted], .aborted)
    else ([], .fellThrough)
  | r + 1, tr =>
    if env.rosOk tr.length then
      if env.navCall (countNav tr) then ([.callNav target true], .success)
      else if r = 0 || !env.rosOk (tr.length + 1) then
        ([.callNav target false, .report .aborted], .aborted)
      else
        let res := moveLoop env target r (tr ++ [.callNav target false, .sleep])
        (.callNav target false :: .sleep :: res.1, res.2)
    else ([], .fellThrough)

/-- The boundary-check pose of an explore-loop iteration, source lines
140-143: the start pose, transformed into the boundary's frame when the
frames differ. -/
def evalPose (env : Env) (goal : Goal) (start : Pose) : Pose :=
  if start.frame ≠ goal.boundary_frame then env.transform start goal.boundary_frame
  else start

/-- Exit status of the inner frontier retry loop (source lines 137-168):
`target gp` = broke out with `goal_pose = gp` (either the center pose
after the out-of-boundary check, or a returned frontier);
`succeededRet` = frontier retries exhausted with the success flag set,
`setSucceeded` called and the callback returned; `abortedRet` = frontier
retries exhausted without the flag (or shutdown after a failure),
`setAborted` called and the callback returned; `fellThrough` = the loop
condition `ros::ok()` was false, leaving `goal_pose` default-initialised. -/
inductive FrontExit where
  | target (gp : Pose)
  | succeededRet
  | abortedRet
  | fellThrough
deriving DecidableEq, Repr

/-- The inner frontier retry loop, source lines 137-168.  Each iteration
re-evaluates the boundary-check pose, returns to the center when outside
the boundary, otherwise calls the frontier service; on failure the retry
counter is decremented with no inter-attempt sleep (the source has none
here), and exhaustion resolves to Succeeded or Aborted according to the
mission-scoped `success` flag `s`. -/
def frontierInner (env : Env) (goal : Goal) (center : Pose) (start : Pose) (s : Bool) :
    Nat → List Event → List Event × FrontExit
  | 0, tr =>
    if env.rosOk tr.length then
      if !pointInPolygon (evalPose env goal start).position goal.explore_boundary then
        ([], .target center)
      else if env.frontierOk (countF tr) then
        ([.callFrontier true], .target (env.frontierPose (countF tr)))
      else if s then ([.callFrontier false, .report .succeeded], .succeededRet)
      else ([.callFrontier false, .report .aborted], .abortedRet)
    else ([], .fellThrough)
  | r + 1, tr =>
    if env.rosOk tr.length then
      if !pointInPolygon (evalPose env goal start).position goal.explore_boundary then
        ([], .target center)
      else if env.frontierOk (countF tr) then
        ([.callFrontier true], .target (env.frontierPose (countF tr)))
      else if r = 0 && s then ([.callFrontier false, .report .succeeded], .succeededRet)
      else if r = 0 || !env.rosOk (tr.length + 1) then
        ([.callFrontier false, .report .aborted], .abortedRet)
      else
        let res := frontierInner env goal center start s r (tr ++ [.callFrontier false])
        (.callFrontier false :: res.1, res.2)
    else ([], .fellThrough)

/-- How the embedded callback ended: `returned` = the source function
returned; `fuelOut` = the model's explore-loop fuel ran out (the source
loop would have kept iterating). -/
inductive TermKind where
  | returned
  | fuelOut
deriving DecidableEq, Repr

/-- The value-initialised `goal_pose` the source navigates to when the
inner frontier loop exits via its `ros::ok()` condition. -/
def defaultPose : Pose := { position := ⟨0, 0⟩, yaw := 0, frame := "" }

/-- The explore loop, source lines 120-193: each iteration queries the
pose source, runs the inner frontier loop with budget 5, then (unless the
inner loop already returned) runs the navigation loop with budget 5 on
the chosen goal pose; a successful navigation sets the mission-scoped
`success` flag.  `iter` indexes the pose-source oracle; `fuel` bounds the
number of iterations of the model. -/
def exploreLoop (env : Env) (goal : Goal) (center : Pose) :
    Bool → Nat → Nat → List Event → List Event × TermKind
  | _, _, 0, _ => ([], .fuelOut)
  | s, iter, fuel + 1, tr =>
    if env.rosOk tr.length then
      match frontierInner env goal center (env.robotPose iter) s 5 tr with
      | (new1, .succeededRet) => (new1, .returned)
      | (new1, .abortedRet) => (new1, .returned)
      | (new1, .target gp) =>
        match moveLoop env gp 5 (tr ++ new1) with
        | (new2, .success) =>
          let res := exploreLoop env goal center true (iter + 1) fuel (tr ++ new1 ++ new2)
          (new1 ++ new2 ++ res.1, res.2)
        | (new2, .aborted) => (new1 ++ new2, .returned)
        | (new2, .fellThrough) =>
          let res := exploreLoop env goal center s (iter + 1) fuel (tr ++ new1 ++ new2)
          (new1 ++ new2 ++ res.1, res.2)
      | (new1, .fellThrough) =>
        match moveLoop env defaultPose 5 (tr ++ new1) with
        | (new2, .success) =>
          let res := exploreLoop env goal center true (iter + 1) fuel (tr ++ new1 ++ new2)
          (new1 ++ new2 ++ res.1, res.2)
        | (new2, .aborted) => (new1 ++ new2, .returned)
        | (new2, .fellThrough) =>
          let res := exploreLoop env goal center s (iter + 1) fuel (tr ++ new1 ++ new2)
          (new1 ++ new2 ++ res.1, res.2)
    else ([], .returned)

/-- The mission callback `executeCB`, source lines 45-195: wait for the
boundary service (unavailability aborts), run the boundary-setting retry
loop with budget 5, wait for move_base, build the center pose (the goal's
center point with yaw 0), run the move-to-center retry loop with budget
5, wait for the frontier service, then run the explore loop with the
success flag initially false.  Returns the full event trace and how the
callback ended. -/
def executeCB (env : Env) (goal : Goal) (fuel : Nat) : List Event × TermKind :=
  if !env.boundaryWait then ([.report .aborted], .returned)
  else
    match setBoundaryLoop env 5 [] with
    | (tr1, .aborted) => (tr1, .returned)
    | (tr1, _) =>
      if !env.moveBaseWait then (tr1 ++ [.report .aborted], .returned)
      else
        let center : Pose :=
          { position := goal.center_point, yaw := 0, frame := goal.center_frame }
        match moveLoop env center 5 tr1 with
        | (new2, .aborted) => (tr1 ++ new2, .returned)
        | (new2, _) =>
          if !env.frontierWait then (tr1 ++ new2 ++ [.report .aborted], .returned)
          else
            let res := exploreLoop env goal center false 0 fuel (tr1 ++ new2)
            (tr1 ++ new2 ++ res.1, res.2)

/-- The square boundary polygon used by the concrete executions below. -/
def sqPoly : List Point := [⟨0, 0⟩, ⟨10, 0⟩, ⟨10, 10⟩, ⟨0, 10⟩]

/-- A concrete mission goal: the square boundary in frame "map", center
point (5, 5). -/
def cGoal : Goal :=
  { explore_boundary := sqPoly, boundary_frame := "map"
    center_point := ⟨5, 5⟩, center_frame := "map" }

/-- The center pose `executeCB` builds from `cGoal`. -/
def cCenter : Pose := { position := ⟨5, 5⟩, yaw := 0, frame := "map" }

/-- A pose inside the square boundary. -/
def inPose : Pose := { position := ⟨5, 5⟩, yaw := 0, frame := "map" }

/-- A pose outside the square boundary. -/
def outPose : Pose := { position := ⟨20, 20⟩, yaw := 0, frame := "map" }

/-- Baseline oracle: middleware healthy forever, no preemption, all
services available, every boundary and navigation call succeeds, the
frontier service always fails, the robot is outside the boundary on the
first explore iteration and inside afterwards, transforms are the
identity. -/
def baseEnv : Env :=
  { rosOk := fun _ => true
    preempt := fun _ => false
    boundaryWait := true
    boundaryCall := fun _ => true
    moveBaseWait := true
    navCall := fun _ => true
    frontierWait := true
    frontierOk := fun _ => false
    frontierPose := fun _ => inPose
    robotPose := fun i => if i = 0 then outPose else inPose
    transform := fun p _ => p }

/-- Oracle with middleware shutdown from time 2 on (the explore loop's
first condition check) and the robot always inside the boundary. -/
def shutEnv : Env :=
  { baseEnv with rosOk := fun t => decide (t < 2), robotPose := fun _ => inPose }

/-- Oracle identical to `baseEnv` but with the preemption flag raised from
mission start. -/
def c4Env : Env := { baseEnv with preempt := fun _ => true }

/-- Oracle whose first boundary call fails and whose preemption flag rises
at time 2, i.e. during the inter-attempt sleep that follows the first
boundary failure. -/
def c5Env : Env :=
  { baseEnv with preempt := fun t => decide (2 ≤ t)
                 boundaryCall := fun i => decide (1 ≤ i) }

/-- Oracle with shutdown from time 2 on and a navigation service that
never reaches its goal. -/
def navShutEnv : Env :=
  { baseEnv with rosOk := fun t => decide (t < 2), navCall := fun _ => false }

/-- Oracle whose boundary and navigation calls always fail. -/
def failEnv : Env :=
  { baseEnv with boundaryCall := fun _ => false, navCall := fun _ => false }

/-- Oracle whose boundary and navigation calls fail on the first attempt
and succeed from the second on. -/
def stepEnv : Env :=
  { baseEnv with boundaryCall := fun i => decide (1 ≤ i)
                 navCall := fun i => decide (1 ≤ i) }

theorem foldl_count_eq_countP (p : Nat → Bool) (l : List Nat) (c : Nat) :
    l.foldl (fun c i => if p i then c + 1 else c) c = c + l.countP p := by
  induction l generalizing c with
  | nil => simp
  | cons a l ih =>
    simp only [List.foldl_cons, List.countP_cons, ih]
    by_cases h : p a = true
    · simp [h]
      omega
    · simp [h]

theorem prevIdx_eq_mod (n i : Nat) (h : i < n) :
    prevIdx n i = (i + n - 1) % n := by
  rcases i with _ | j
  · have h1 : 0 + n - 1 = n - 1 := by omega
    simp [prevIdx, h1, Nat.mod_eq_of_lt (show n - 1 < n by omega)]
  · have hj : j < n := by omega
    have h2 : j + 1 + n - 1 = j + n := by omega
    simp [prevIdx, h2, Nat.add_mod_right, Nat.mod_eq_of_lt hj]

theorem crossesEdge_eq_specCrosses (point pi pj : Point) :
    crossesEdge point pi pj = specCrosses point pi pj := by
  unfold crossesEdge specCrosses yStraddles
  by_cases h1 : pi.y > point.y <;> by_cases h2 : pj.y > point.y <;>
    simp [h1, h2, le_of_not_lt]

/-- Claim C7: for every point and every polygon, the containment test
returns true iff the number of polygon edges `(p i, p j)` — `j` the
previous wrapping index — with exactly one endpoint y-coordinate strictly
above `point.y` (the other at most `point.y`) and `point.x` strictly left
of the edge's linear-interpolation crossing of the line `y = point.y`, is
odd. -/
theorem pointInPolygon_iff_odd_crossings (point : Point) (polygon : List Point) :
    pointInPolygon point polygon = true ↔ Odd (specCrossCount point polygon) := by
  simp only [pointInPolygon, specCrossCount]
  rw [foldl_count_eq_countP]
  have hcong : ∀ i ∈ List.range polygon.length,
      (crossesEdge point (polygon.getD i ⟨0, 0⟩)
        (polygon.getD (prevIdx polygon.length i) ⟨0, 0⟩)) = true ↔
      (specCrosses point (polygon.getD i ⟨0, 0⟩)
        (polygon.getD ((i + polygon.length - 1) % polygon.length) ⟨0, 0⟩)) = true := by
    intro i hi
    rw [prevIdx_eq_mod polygon.length i (List.mem_range.mp hi),
      crossesEdge_eq_specCrosses]
  rw [List.countP_congr hcong]
  simp [Nat.odd_iff]

theorem interp_swap (point a b : Point) (hab : b.y - a.y ≠ 0) :
    (b.x - a.x) * (point.y - a.y) / (b.y - a.y) + a.x =
      (a.x - b.x) * (point.y - b.y) / (a.y - b.y) + b.x := by
  have hba : a.y - b.y ≠ 0 := fun he => hab (by linarith [sub_eq_zero.mp he])
  field_simp
  ring

theorem crossesEdge_swap (point a b : Point) :
    crossesEdge point a b = crossesEdge point b a := by
  unfold crossesEdge yStraddles
  by_cases h1 : a.y > point.y <;> by_cases h2 : b.y > point.y
  · simp [h1, h2]
  · have hab : b.y - a.y ≠ 0 := by
      intro he
      have hyy : b.y = a.y := sub_eq_zero.mp he
      exact h2 (by rw [hyy]; exact h1)
    simp only [h1, h2]
    rw [interp_swap point a b hab]
    simp
  · have hab : b.y - a.y ≠ 0 := by
      intro he
      have hyy : b.y = a.y := sub_eq_zero.mp he
      exact h1 (by rw [← hyy]; exact h2)
    simp only [h1, h2]
    rw [interp_swap point a b hab]
    simp
  · simp [h1, h2]

/-- Claim C9: for every point and every degenerate polygon of fewer than
three vertices, the containment test returns false. -/
theorem pointInPolygon_degenerate (point : Point) (polygon : List Point)
    (h : polygon.length < 3) : pointInPolygon point polygon = false := by
  rcases polygon with _ | ⟨a, _ | ⟨b, _ | ⟨c, rest⟩⟩⟩
  · rfl
  · simp only [pointInPolygon, List.length_cons, List.length_nil]
    rw [show List.range (0 + 1) = [0] from rfl]
    simp [crossesEdge, yStraddles, prevIdx]
  · have hs := crossesEdge_swap point a b
    simp only [pointInPolygon, List.length_cons, List.length_nil]
    rw [show List.range (0 + 1 + 1) = [0, 1] from rfl]
    simp only [List.foldl_cons, List.foldl_nil, List.getD, prevIdx]
    norm_num
    rw [hs]
    cases hc : crossesEdge point b a <;> simp [hc]
  · simp at h
    omega

/-- Claim C9 witness: the two-point polygon and a query point for which
the degenerate case is exercised. -/
theorem pointInPolygon_degenerate_w :
    ([(⟨0, 1⟩ : Point), ⟨3, -1⟩].length < 3) ∧
      pointInPolygon ⟨0, 0⟩ [⟨0, 1⟩, ⟨3, -1⟩] = false :=
  ⟨by decide, pointInPolygon_degenerate ⟨0, 0⟩ [⟨0, 1⟩, ⟨3, -1⟩] (by decide)⟩

/-- Claim C10: the y-straddle guard of the crossing test forces the two
endpoint y-coordinates apart, so the divisor of the interpolation is
nonzero whenever the division is evaluated (the source evaluates it only
under the guard, via short-circuit conjunction). -/
theorem straddle_denominator_nonzero (point pi pj : Point)
    (h : yStraddles point pi pj = true) : pj.y - pi.y ≠ 0 := by
  intro he
  have hyy : pj.y = pi.y := sub_eq_zero.mp he
  rw [yStraddles, hyy] at h
  simp at h

/-- Claim C10 witness: a concrete straddling edge with nonzero divisor. -/
theorem straddle_denominator_nonzero_w :
    yStraddles ⟨0, 0⟩ ⟨0, 1⟩ ⟨3, -1⟩ = true ∧
      ((⟨3, -1⟩ : Point).y - (⟨0, 1⟩ : Point).y ≠ 0) :=
  ⟨by decide, straddle_denominator_nonzero ⟨0, 0⟩ ⟨0, 1⟩ ⟨3, -1⟩ (by decide)⟩

theorem frontierInner_all_fail (env : Env) (goal : Goal) (center start : Pose) (s : Bool)
    (hros : ∀ t, env.rosOk t = true)
    (hin : pointInPolygon (evalPose env goal start).position goal.explore_boundary = true)
    (hfail : ∀ i, env.frontierOk i = false) :
    ∀ r tr, frontierInner env goal center start s (r + 1) tr =
      (List.replicate (r + 1) (Event.callFrontier false) ++
        [Event.report (if s then Outcome.succeeded else Outcome.aborted)],
       if s then FrontExit.succeededRet else FrontExit.abortedRet) := by
  intro r
  induction r with
  | zero =>
    intro tr
    cases s <;> simp [frontierInner, hros, hin, hfail]
  | succ r ih =>
    intro tr
    rw [frontierInner]
    simp [hros, hin, hfail, ih, List.replicate_succ]

/-- Claim C1: in the explore loop, when the frontier-service call fails
for all five attempts of its retry budget, the mission reports Succeeded
when the mission-scoped success flag is set, and reports Aborted when it
is not; the exit is exactly one of those two returns. -/
theorem frontier_exhaustion_outcome (env : Env) (goal : Goal) (center start : Pose)
    (s : Bool) (tr : List Event)
    (hros : ∀ t, env.rosOk t = true)
    (hin : pointInPolygon (evalPose env goal start).position goal.explore_boundary = true)
    (hfail : ∀ i, env.frontierOk i = false) :
    frontierInner env goal center start s 5 tr =
      (List.replicate 5 (Event.callFrontier false) ++
        [Event.report (if s then Outcome.succeeded else Outcome.aborted)],
       if s then FrontExit.succeededRet else FrontExit.abortedRet) :=
  frontierInner_all_fail env goal center start s hros hin hfail 4 tr

/-- Claim C1 witness: concrete oracle with the robot inside the boundary
and a persistently failing frontier service, success flag set. -/
theorem frontier_exhaustion_outcome_w :
    pointInPolygon (evalPose baseEnv cGoal inPose).position cGoal.explore_boundary = true ∧
    frontierInner baseEnv cGoal cCenter inPose true 5 [] =
      (List.replicate 5 (Event.callFrontier false) ++ [Event.report Outcome.succeeded],
       FrontExit.succeededRet) :=
  ⟨by with_unfolding_all rfl,
   frontier_exhaustion_outcome baseEnv cGoal cCenter inPose true []
     (fun _ => rfl) (by with_unfolding_all rfl) (fun _ => rfl)⟩

theorem frontierInner_outside (env : Env) (goal : Goal) (center start : Pose)
    (s : Bool) (tr : List Event)
    (hros : env.rosOk tr.length = true)
    (hout : pointInPolygon (evalPose env goal start).position goal.explore_boundary = false) :
    ∀ r, frontierInner env goal center start s r tr = ([], .target center) := by
  intro r
  cases r <;> simp [frontierInner, hros, hout]

/-- Claim C8: in an explore-loop iteration whose boundary-check pose lies
outside the boundary polygon, the inner loop immediately selects the
center pose as navigation target without any frontier-service call —
regardless of the frontier oracle — and the iteration's events start with
the navigation loop towards the center pose. -/
theorem outside_boundary_targets_center (env : Env) (goal : Goal) (center : Pose)
    (s : Bool) (iter r : Nat) (tr : List Event)
    (hros : env.rosOk tr.length = true)
    (hout : pointInPolygon (evalPose env goal (env.robotPose iter)).position
      goal.explore_boundary = false) :
    frontierInner env goal center (env.robotPose iter) s r tr = ([], .target center) ∧
    ∀ fuel, ∃ rest, (exploreLoop env goal center s iter (fuel + 1) tr).1 =
      (moveLoop env center 5 tr).1 ++ rest := by
  refine ⟨frontierInner_outside env goal center (env.robotPose iter) s tr hros hout r, ?_⟩
  intro fuel
  have hf := frontierInner_outside env goal center (env.robotPose iter) s tr hros hout 5
  rw [exploreLoop, hros, if_pos rfl, hf]
  rcases hm : moveLoop env center 5 (tr ++ []) with ⟨new2, e2⟩
  rw [List.append_nil] at hm
  cases e2 <;> simp [hm]

/-- Claim C8 witness: concrete oracle whose first explore iteration sees
the robot outside the square boundary. -/
theorem outside_boundary_targets_center_w :
    baseEnv.rosOk 0 = true ∧
    pointInPolygon (evalPose baseEnv cGoal (baseEnv.robotPose 0)).position
      cGoal.explore_boundary = false ∧
    (frontierInner baseEnv cGoal cCenter (baseEnv.robotPose 0) false 5 [] =
        ([], .target cCenter) ∧
      ∀ fuel, ∃ rest, (exploreLoop baseEnv cGoal cCenter false 0 (fuel + 1) []).1 =
        (moveLoop baseEnv cCenter 5 []).1 ++ rest) :=
  ⟨rfl, by with_unfolding_all rfl,
   outside_boundary_targets_center baseEnv cGoal cCenter false 0 5 [] rfl
     (by with_unfolding_all rfl)⟩

theorem reports_append (l1 l2 : List Event) :
    reports (l1 ++ l2) = reports l1 ++ reports l2 := by
  simp [reports]

theorem reports_nil : reports [] = [] := rfl

theorem reports_cons_boundary (b : Bool) (tr : List Event) :
    reports (Event.callBoundary b :: tr) = reports tr := by simp [reports]

theorem reports_cons_nav (p : Pose) (b : Bool) (tr : List Event) :
    reports (Event.callNav p b :: tr) = reports tr := by simp [reports]

theorem reports_cons_frontier (b : Bool) (tr : List Event) :
    reports (Event.callFrontier b :: tr) = reports tr := by simp [reports]

theorem reports_cons_sleep (tr : List Event) :
    reports (Event.sleep :: tr) = reports tr := by simp [reports]

theorem reports_cons_report (o : Outcome) (tr : List Event) :
    reports (Event.report o :: tr) = o :: reports tr := by simp [reports]

theorem setBoundaryLoop_reports (env : Env) :
    ∀ r tr, reports (setBoundaryLoop env r tr).1 =
      (if (setBoundaryLoop env r tr).2 = BoundExit.aborted then [Outcome.aborted] else []) := by
  intro r
  induction r with
  | zero =>
    intro tr
    rw [setBoundaryLoop]
    split
    · split <;> simp [reports]
    · simp [reports]
  | succ r ih =>
    intro tr
    rw [setBoundaryLoop]
    split
    · split
      · simp [reports]
      · split
        · simp [reports]
        · simp [reports_cons_boundary, reports_cons_sleep, ih]
    · simp [reports]

theorem moveLoop_reports (env : Env) (target : Pose) :
    ∀ r tr, reports (moveLoop env target r tr).1 =
      (if (moveLoop env target r tr).2 = MoveExit.aborted then [Outcome.aborted] else []) := by
  intro r
  induction r with
  | zero =>
    intro tr
    rw [moveLoop]
    split
    · split <;> simp [reports]
    · simp [reports]
  | succ r ih =>
    intro tr
    rw [moveLoop]
    split
    · split
      · simp [reports]
      · split
        · simp [reports]
        · simp [reports_cons_nav, reports_cons_sleep, ih]
    · simp [reports]

theorem frontierInner_reports (env : Env) (goal : Goal) (center start : Pose) (s : Bool) :
    ∀ r tr, reports (frontierInner env goal center start s r tr).1 =
      (if (frontierInner env goal center start s r tr).2 = FrontExit.succeededRet
        then [Outcome.succeeded]
       else if (frontierInner env goal center start s r tr).2 = FrontExit.abortedRet
        then [Outcome.aborted]
       else []) := by
  intro r
  induction r with
  | zero =>
    intro tr
    rw [frontierInner]
    split
    · split
      · simp [reports]
      · split
        · simp [reports]
        · split <;> simp [reports]
    · simp [reports]
  | succ r ih =>
    intro tr
    rw [frontierInner]
    split
    · split
      · simp [reports]
      · split
        · simp [reports]
        · split
          · simp [reports]
          · split
            · simp [reports]
            · simp [reports_cons_frontier, ih]
    · simp [reports]

theorem moveLoop_not_fellThrough (env : Env) (target : Pose)
    (hros : ∀ t, env.rosOk t = true) :
    ∀ r tr, (moveLoop env target r tr).2 ≠ MoveExit.fellThrough := by
  intro r
  induction r with
  | zero =>
    intro tr
    rw [moveLoop]
    split
    · split <;> simp
    · simp_all
  | succ r ih =>
    intro tr
    rw [moveLoop]
    split
    · split
      · simp
      · split
        · simp
        · simp [ih]
    · simp_all

theorem frontierInner_not_fellThrough (env : Env) (goal : Goal) (center start : Pose)
    (s : Bool) (hros : ∀ t, env.rosOk t = true) :
    ∀ r tr, (frontierInner env goal center start s r tr).2 ≠ FrontExit.fellThrough := by
  intro r
  induction r with
  | zero =>
    intro tr
    rw [frontierInner]
    split
    · split
      · simp
      · split
        · simp
        · split <;> simp
    · simp_all
  | succ r ih =>
    intro tr
    rw [frontierInner]
    split
    · split
      · simp
      · split
        · simp
        · split
          · simp
          · split
            · simp
            · simp [ih]
    · simp_all

theorem exploreLoop_reports (env : Env) (goal : Goal) (center : Pose)
    (hros : ∀ t, env.rosOk t = true) :
    ∀ fuel s iter tr,
      ((exploreLoop env goal center s iter fuel tr).2 = TermKind.returned →
        ∃ o, reports (exploreLoop env goal center s iter fuel tr).1 = [o]) ∧
      ((exploreLoop env goal center s iter fuel tr).2 = TermKind.fuelOut →
        reports (exploreLoop env goal center s iter fuel tr).1 = []) := by
  intro fuel
  induction fuel with
  | zero =>
    intro s iter tr
    simp [exploreLoop, reports]
  | succ fuel ih =>
    intro s iter tr
    rw [exploreLoop, if_pos (hros tr.length)]
    split
    · rename_i new1 heq
      have hr := frontierInner_reports env goal center (env.robotPose iter) s 5 tr
      rw [heq] at hr
      simp at hr
      exact ⟨fun _ => ⟨Outcome.succeeded, by simp [hr]⟩, fun hk => by simp at hk⟩
    · rename_i new1 heq
      have hr := frontierInner_reports env goal center (env.robotPose iter) s 5 tr
      rw [heq] at hr
      simp at hr
      exact ⟨fun _ => ⟨Outcome.aborted, by simp [hr]⟩, fun hk => by simp at hk⟩
    · rename_i new1 gp heq
      have hr1 := frontierInner_reports env goal center (env.robotPose iter) s 5 tr
      rw [heq] at hr1
      simp at hr1
      split
      · rename_i new2 heq2
        have hr2 := moveLoop_reports env gp 5 (tr ++ new1)
        rw [heq2] at hr2
        simp at hr2
        constructor
        · intro hk
          dsimp only at hk
          obtain ⟨o, ho⟩ := (ih true (iter + 1) (tr ++ new1 ++ new2)).1 hk
          exact ⟨o, by simp only [reports_append, hr1, hr2, List.nil_append, ho]⟩
        · intro hk
          dsimp only at hk
          have hre := (ih true (iter + 1) (tr ++ new1 ++ new2)).2 hk
          simp only [reports_append, hr1, hr2, List.nil_append, hre]
      · rename_i new2 heq2
        have hr2 := moveLoop_reports env gp 5 (tr ++ new1)
        rw [heq2] at hr2
        simp at hr2
        exact ⟨fun _ => ⟨Outcome.aborted, by simp [reports_append, hr1, hr2]⟩,
          fun hk => by simp at hk⟩
      · rename_i new2 heq2
        have hnf := moveLoop_not_fellThrough env gp hros 5 (tr ++ new1)
        rw [heq2] at hnf
        exact absurd rfl hnf
    · rename_i new1 heq
      have hnf := frontierInner_not_fellThrough env goal center (env.robotPose iter) s hros 5 tr
      rw [heq] at hnf
      exact absurd rfl hnf

/-- Claim C3 counterexample: with the shutdown signal dropping at time 2
(just before the explore loop's first condition check) and every
collaborator healthy, the callback returns — the outer loop exits via its
`ros::ok()` condition — without ever reporting a terminal outcome, so a
mission invocation can end with no reported outcome. -/
theorem returns_without_report_on_shutdown :
    executeCB shutEnv cGoal 1 =
      ([Event.callBoundary true, Event.callNav cCenter true], TermKind.returned) ∧
    reports (executeCB shutEnv cGoal 1).1 = [] :=
  ⟨by with_unfolding_all rfl, by with_unfolding_all rfl⟩

/-- Claim C3 (amended): on every control path on which the middleware
shutdown signal never fires, a returning mission invocation reports
exactly one terminal outcome (Succeeded or Aborted); if shutdown causes
the loops to exit, the callback may return without reporting. -/
theorem reports_exactly_once_when_ros_ok (env : Env) (goal : Goal) (fuel : Nat)
    (hros : ∀ t, env.rosOk t = true)
    (hret : (executeCB env goal fuel).2 = TermKind.returned) :
    ∃ o, reports (executeCB env goal fuel).1 = [o] := by
  rw [executeCB] at hret ⊢
  by_cases hbw : env.boundaryWait
  · rw [hbw] at hret ⊢
    simp only [Bool.not_true, Bool.false_eq_true, if_false] at hret ⊢
    rcases hb : setBoundaryLoop env 5 [] with ⟨tr1, e1⟩
    rw [hb] at hret
    have hrb := setBoundaryLoop_reports env 5 []
    rw [hb] at hrb
    cases e1 with
    | aborted =>
      dsimp only at hret ⊢
      simp at hrb
      exact ⟨Outcome.aborted, hrb⟩
    | brk =>
      dsimp only at hret ⊢
      simp at hrb
      by_cases hmw : env.moveBaseWait
      · rw [hmw] at hret ⊢
        simp only [Bool.not_true, Bool.false_eq_true, if_false] at hret ⊢
        rcases hm : moveLoop env
            { position := goal.center_point, yaw := 0, frame := goal.center_frame } 5 tr1
          with ⟨new2, e2⟩
        rw [hm] at hret
        have hrm := moveLoop_reports env
          { position := goal.center_point, yaw := 0, frame := goal.center_frame } 5 tr1
        rw [hm] at hrm
        cases e2 with
        | aborted =>
          dsimp only at hret ⊢
          simp at hrm
          exact ⟨Outcome.aborted, by simp [reports_append, hrb, hrm]⟩
        | success =>
          dsimp only at hret ⊢
          simp at hrm
          by_cases hfw : env.frontierWait
          · rw [hfw] at hret ⊢
            simp only [Bool.not_true, Bool.false_eq_true, if_false] at hret ⊢
            obtain ⟨o, ho⟩ := (exploreLoop_reports env goal
              { position := goal.center_point, yaw := 0, frame := goal.center_frame }
              hros fuel false 0 (tr1 ++ new2)).1 hret
            exact ⟨o, by simp only [reports_append, hrb, hrm, List.nil_append, ho]⟩
          · simp only [Bool.not_eq_true] at hfw
            rw [hfw] at hret ⊢
            simp only [Bool.not_false, if_true] at hret ⊢
            exact ⟨Outcome.aborted, by simp [reports_append, hrb, hrm, reports_cons_report, reports_nil]⟩
        | fellThrough =>
          have hnf := moveLoop_not_fellThrough env
            { position := goal.center_point, yaw := 0, frame := goal.center_frame } hros 5 tr1
          rw [hm] at hnf
          exact absurd rfl hnf
      · simp only [Bool.not_eq_true] at hmw
        rw [hmw] at hret ⊢
        simp only [Bool.not_false, if_true] at hret ⊢
        exact ⟨Outcome.aborted, by simp [reports_append, hrb, reports_cons_report, reports_nil]⟩
    | fellThrough =>
      dsimp only at hret ⊢
      simp at hrb
      by_cases hmw : env.moveBaseWait
      · rw [hmw] at hret ⊢
        simp only [Bool.not_true, Bool.false_eq_true, if_false] at hret ⊢
        rcases hm : moveLoop env
            { position := goal.center_point, yaw := 0, frame := goal.center_frame } 5 tr1
          with ⟨new2, e2⟩
        rw [hm] at hret
        have hrm := moveLoop_reports env
          { position := goal.center_point, yaw := 0, frame := goal.center_frame } 5 tr1
        rw [hm] at hrm
        cases e2 with
        | aborted =>
          dsimp only at hret ⊢
          simp at hrm
          exact ⟨Outcome.aborted, by simp [reports_append, hrb, hrm]⟩
        | success =>
          dsimp only at hret ⊢
          simp at hrm
          by_cases hfw : env.frontierWait
          · rw [hfw] at hret ⊢
            simp only [Bool.not_true, Bool.false_eq_true, if_false] at hret ⊢
            obtain ⟨o, ho⟩ := (exploreLoop_reports env goal
              { position := goal.center_point, yaw := 0, frame := goal.center_frame }
              hros fuel false 0 (tr1 ++ new2)).1 hret
            exact ⟨o, by simp only [reports_append, hrb, hrm, List.nil_append, ho]⟩
          · simp only [Bool.not_eq_true] at hfw
            rw [hfw] at hret ⊢
            simp only [Bool.not_false, if_true] at hret ⊢
            exact ⟨Outcome.aborted, by simp [reports_append, hrb, hrm, reports_cons_report, reports_nil]⟩
        | fellThrough =>
          have hnf := moveLoop_not_fellThrough env
            { position := goal.center_point, yaw := 0, frame := goal.center_frame } hros 5 tr1
          rw [hm] at hnf
          exact absurd rfl hnf
      · simp only [Bool.not_eq_true] at hmw
        rw [hmw] at hret ⊢
        simp only [Bool.not_false, if_true] at hret ⊢
        exact ⟨Outcome.aborted, by simp [reports_append, hrb, reports_cons_report, reports_nil]⟩
  · simp only [Bool.not_eq_true] at hbw
    rw [hbw] at hret ⊢
    simp only [Bool.not_false, if_true] at hret ⊢
    exact ⟨Outcome.aborted, by simp [reports_cons_report, reports_nil]⟩

/-- Claim C3 witness: the amended theorem applied to the healthy baseline
oracle. -/
theorem reports_exactly_once_when_ros_ok_w :
    (executeCB baseEnv cGoal 3).2 = TermKind.returned ∧
    ∃ o, reports (executeCB baseEnv cGoal 3).1 = [o] :=
  ⟨by with_unfolding_all rfl,
   reports_exactly_once_when_ros_ok baseEnv cGoal 3 (fun _ => rfl)
     (by with_unfolding_all rfl)⟩

/-- Claim C2 counterexample: with the robot initially outside the
boundary, a successful return-to-center navigation, and a frontier
service that never succeeds, the mission-scoped success flag is set by
the center-recovery navigation alone, and frontier-retry exhaustion then
reports Succeeded although no frontier pose was ever reached: every
navigation in the trace targets the center pose and no frontier call ever
succeeded. -/
theorem succeeded_without_frontier_reached :
    executeCB baseEnv cGoal 3 =
      ([Event.callBoundary true, Event.callNav cCenter true, Event.callNav cCenter true,
        Event.callFrontier false, Event.callFrontier false, Event.callFrontier false,
        Event.callFrontier false, Event.callFrontier false, Event.report Outcome.succeeded],
       TermKind.returned) ∧
    (executeCB baseEnv cGoal 3).1.countP (fun e => e == Event.callFrontier true) = 0 ∧
    (executeCB baseEnv cGoal 3).1.countP
      (fun e => isNavCall e && !(e == Event.callNav cCenter true)) = 0 :=
  ⟨by with_unfolding_all rfl, by with_unfolding_all rfl, by with_unfolding_all rfl⟩

theorem report_mem_iff (o : Outcome) (tr : List Event) :
    Event.report o ∈ tr ↔ o ∈ reports tr := by
  simp only [reports, List.mem_filterMap]
  constructor
  · intro h
    exact ⟨Event.report o, h, rfl⟩
  · rintro ⟨e, he, hm⟩
    cases e <;> simp at hm
    subst hm
    exact he

theorem moveLoop_no_succeeded_report (env : Env) (target : Pose) (r : Nat) (tr : List Event) :
    Event.report Outcome.succeeded ∉ (moveLoop env target r tr).1 := by
  rw [report_mem_iff, moveLoop_reports]
  split <;> simp

theorem moveLoop_success_nav (env : Env) (target : Pose) :
    ∀ r tr new, moveLoop env target r tr = (new, MoveExit.success) →
      Event.callNav target true ∈ new := by
  intro r
  induction r with
  | zero =>
    intro tr new h
    rw [moveLoop] at h
    split at h
    · split at h
      · simp at h
        subst h
        simp
      · simp at h
    · simp at h
  | succ r ih =>
    intro tr new h
    rw [moveLoop] at h
    split at h
    · split at h
      · simp at h
        subst h
        simp
      · split at h
        · simp at h
        · simp only [Prod.mk.injEq] at h
          obtain ⟨hnew, hexit⟩ := h
          subst hnew
          have := ih (tr ++ [Event.callNav target false, Event.sleep])
            (moveLoop env target r (tr ++ [Event.callNav target false, Event.sleep])).1
            (by rw [← hexit])
          simp [this]
    · simp at h

theorem frontierInner_false_no_succeeded (env : Env) (goal : Goal) (center start : Pose) :
    ∀ r tr, (frontierInner env goal center start false r tr).2 ≠ FrontExit.succeededRet ∧
      Event.report Outcome.succeeded ∉ (frontierInner env goal center start false r tr).1 := by
  intro r
  induction r with
  | zero =>
    intro tr
    rw [frontierInner]
    split
    · split
      · simp
      · split
        · simp
        · simp
    · simp
  | succ r ih =>
    intro tr
    rw [frontierInner]
    split
    · split
      · simp
      · split
        · simp
        · split
          · simp_all
          · split
            · simp
            · exact ⟨(ih (tr ++ [Event.callFrontier false])).1, by
                simp only [List.mem_cons]
                rintro (h | h)
                · exact absurd h.symm (by simp)
                · exact absurd h (ih (tr ++ [Event.callFrontier false])).2⟩
    · simp

/-- Claim C2 (amended): the mission-scoped success flag is set exactly by
a successful navigation issued inside the explore loop — which may be a
navigation to a frontier or the return-to-center navigation after an
out-of-boundary recovery.  Hence a Succeeded report produced by
frontier-retry exhaustion from an initially clear flag requires some
prior successful in-loop navigation, but not necessarily a reached
frontier. -/
theorem succeeded_requires_prior_loop_nav (env : Env) (goal : Goal) (center : Pose) :
    ∀ fuel iter tr,
      Event.report Outcome.succeeded ∈ (exploreLoop env goal center false iter fuel tr).1 →
      ∃ p, Event.callNav p true ∈ (exploreLoop env goal center false iter fuel tr).1 := by
  intro fuel
  induction fuel with
  | zero =>
    intro iter tr h
    simp [exploreLoop] at h
  | succ fuel ih =>
    intro iter tr h
    rw [exploreLoop] at h ⊢
    by_cases hok : env.rosOk tr.length = true
    · rw [if_pos hok] at h ⊢
      have hF := frontierInner_false_no_succeeded env goal center (env.robotPose iter) 5 tr
      generalize hf : frontierInner env goal center (env.robotPose iter) false 5 tr = fres at h ⊢
      rw [hf] at hF
      rcases fres with ⟨new1, e1⟩
      cases e1 with
      | succeededRet => exact absurd rfl hF.1
      | abortedRet =>
        dsimp only at h
        exact absurd h hF.2
      | target gp =>
        dsimp only at h ⊢
        generalize hm : moveLoop env gp 5 (tr ++ new1) = mres at h ⊢
        rcases mres with ⟨new2, e2⟩
        cases e2 with
        | success =>
          dsimp only at h ⊢
          have hnav := moveLoop_success_nav env gp 5 (tr ++ new1) new2 hm
          exact ⟨gp, by simp [hnav]⟩
        | aborted =>
          dsimp only at h
          rw [List.mem_append] at h
          rcases h with h | h
          · exact absurd h hF.2
          · have hns := moveLoop_no_succeeded_report env gp 5 (tr ++ new1)
            rw [hm] at hns
            exact absurd h hns
        | fellThrough =>
          dsimp only at h ⊢
          rw [List.mem_append, List.mem_append] at h
          rcases h with (h | h) | h
          · exact absurd h hF.2
          · have hns := moveLoop_no_succeeded_report env gp 5 (tr ++ new1)
            rw [hm] at hns
            exact absurd h hns
          · obtain ⟨p, hp⟩ := ih (iter + 1) (tr ++ new1 ++ new2) h
            refine ⟨p, ?_⟩
            rw [List.mem_append]
            exact Or.inr hp
      | fellThrough =>
        dsimp only at h ⊢
        generalize hm : moveLoop env defaultPose 5 (tr ++ new1) = mres at h ⊢
        rcases mres with ⟨new2, e2⟩
        cases e2 with
        | success =>
          dsimp only at h ⊢
          have hnav := moveLoop_success_nav env defaultPose 5 (tr ++ new1) new2 hm
          exact ⟨defaultPose, by simp [hnav]⟩
        | aborted =>
          dsimp only at h
          rw [List.mem_append] at h
          rcases h with h | h
          · exact absurd h hF.2
          · have hns := moveLoop_no_succeeded_report env defaultPose 5 (tr ++ new1)
            rw [hm] at hns
            exact absurd h hns
        | fellThrough =>
          dsimp only at h ⊢
          rw [List.mem_append, List.mem_append] at h
          rcases h with (h | h) | h
          · exact absurd h hF.2
          · have hns := moveLoop_no_succeeded_report env defaultPose 5 (tr ++ new1)
            rw [hm] at hns
            exact absurd h hns
          · obtain ⟨p, hp⟩ := ih (iter + 1) (tr ++ new1 ++ new2) h
            refine ⟨p, ?_⟩
            rw [List.mem_append]
            exact Or.inr hp
    · rw [if_neg hok] at h
      simp at h

/-- Claim C2 witness: the amended theorem applied to the baseline oracle,
whose explore loop reports Succeeded after a successful return-to-center
navigation. -/
theorem succeeded_requires_prior_loop_nav_w :
    Event.report Outcome.succeeded ∈
      (exploreLoop baseEnv cGoal cCenter false 0 3
        [Event.callBoundary true, Event.callNav cCenter true]).1 ∧
    ∃ p, Event.callNav p true ∈
      (exploreLoop baseEnv cGoal cCenter false 0 3
        [Event.callBoundary true, Event.callNav cCenter true]).1 :=
  ⟨by with_unfolding_all decide,
   succeeded_requires_prior_loop_nav baseEnv cGoal cCenter 3 0
     [Event.callBoundary true, Event.callNav cCenter true]
     (by with_unfolding_all decide)⟩

/-- Claim C4 is contradicted by the code at this input: with the
preemption flag raised from time 0 (before any call) and every
collaborator healthy, the only preemption check — the boundary loop's
condition — merely skips the boundary-setting step; the mission then
issues navigation and frontier calls anyway and reports Succeeded, rather
than transitioning to Aborted with no further collaborator calls. -/
theorem preempt_observed_mission_continues :
    c4Env.preempt 0 = true ∧
    executeCB c4Env cGoal 3 =
      ([Event.callNav cCenter true, Event.callNav cCenter true,
        Event.callFrontier false, Event.callFrontier false, Event.callFrontier false,
        Event.callFrontier false, Event.callFrontier false, Event.report Outcome.succeeded],
       TermKind.returned) :=
  ⟨rfl, by with_unfolding_all rfl⟩

/-- Claim C5 counterexample: the preemption flag rises at time 2 — during
the inter-attempt sleep that follows the first failed boundary attempt
(the sleep is the trace event at index 1, so the next loop-condition
check samples time 2).  The retry loop does stop with no second boundary
attempt, but the mission does not report the cancelled outcome Aborted:
it continues through the remaining steps and reports Succeeded. -/
theorem cancel_during_delay_mission_succeeds :
    c5Env.preempt 1 = false ∧ c5Env.preempt 2 = true ∧
    executeCB c5Env cGoal 3 =
      ([Event.callBoundary false, Event.sleep, Event.callNav cCenter true,
        Event.callNav cCenter true, Event.callFrontier false, Event.callFrontier false,
        Event.callFrontier false, Event.callFrontier false, Event.callFrontier false,
        Event.report Outcome.succeeded], TermKind.returned) ∧
    countB (executeCB c5Env cGoal 3).1 = 1 :=
  ⟨rfl, rfl, by with_unfolding_all rfl, by with_unfolding_all rfl⟩

/-- Claim C5 (amended): if cancellation is raised during the fixed
inter-attempt delay of a delay-bearing retry loop (the boundary-setting
loop, whose condition observes shutdown or preemption, or a navigation
loop, whose condition observes shutdown), the loop stops immediately and
performs no further attempts of the operation even though attempts remain
in the budget; but the loop only falls through without reporting, and the
mission does not necessarily report Aborted. -/
theorem cancel_during_delay_stops_attempts :
    (∀ (env : Env) (r : Nat) (tr : List Event),
      env.rosOk tr.length = true → env.preempt tr.length = false →
      env.boundaryCall (countB tr) = false →
      env.rosOk (tr.length + 1) = true →
      (env.rosOk (tr.length + 2) = false ∨ env.preempt (tr.length + 2) = true) →
      1 ≤ r →
      setBoundaryLoop env (r + 1) tr =
        ([Event.callBoundary false, Event.sleep], BoundExit.fellThrough)) ∧
    (∀ (env : Env) (target : Pose) (r : Nat) (tr : List Event),
      env.rosOk tr.length = true →
      env.navCall (countNav tr) = false →
      env.rosOk (tr.length + 1) = true →
      env.rosOk (tr.length + 2) = false →
      1 ≤ r →
      moveLoop env target (r + 1) tr =
        ([Event.callNav target false, Event.sleep], MoveExit.fellThrough)) := by
  constructor
  · intro env r tr h0 hp0 hcall h1 hc hr
    rcases r with _ | r0
    · omega
    · rw [setBoundaryLoop]
      have hl : (tr ++ [Event.callBoundary false, Event.sleep]).length = tr.length + 2 := by
        simp
      rcases hc with hc | hc
      · rw [setBoundaryLoop]
        simp [h0, hp0, hcall, h1, hl, hc]
      · rw [setBoundaryLoop]
        simp [h0, hp0, hcall, h1, hl, hc]
  · intro env target r tr h0 hcall h1 h2 hr
    rcases r with _ | r0
    · omega
    · rw [moveLoop]
      have hl : (tr ++ [Event.callNav target false, Event.sleep]).length = tr.length + 2 := by
        simp
      rw [moveLoop]
      simp [h0, hcall, h1, h2, hl]

/-- Claim C5 witness: the amended theorem applied to concrete oracles —
preemption rising during the boundary delay, and shutdown during a
navigation delay. -/
theorem cancel_during_delay_stops_attempts_w :
    setBoundaryLoop c5Env 2 [] =
      ([Event.callBoundary false, Event.sleep], BoundExit.fellThrough) ∧
    moveLoop navShutEnv cCenter 2 [] =
      ([Event.callNav cCenter false, Event.sleep], MoveExit.fellThrough) :=
  ⟨cancel_during_delay_stops_attempts.1 c5Env 1 [] rfl rfl rfl rfl (Or.inr rfl) (le_refl 1),
   cancel_during_delay_stops_attempts.2 navShutEnv cCenter 1 [] rfl rfl rfl rfl (le_refl 1)⟩

theorem setBoundaryLoop_all_fail (env : Env)
    (hros : ∀ t, env.rosOk t = true) (hpre : ∀ t, env.preempt t = false)
    (hfail : ∀ i, env.boundaryCall i = false) :
    ∀ r tr, ∃ new, setBoundaryLoop env (r + 1) tr = (new, BoundExit.aborted) ∧
      countB new = r + 1 := by
  intro r
  induction r with
  | zero =>
    intro tr
    refine ⟨[Event.callBoundary false, Event.report Outcome.aborted], ?_, rfl⟩
    rw [setBoundaryLoop]
    simp [hros, hpre, hfail]
  | succ r ih =>
    intro tr
    obtain ⟨new, hnew, hcount⟩ := ih (tr ++ [Event.callBoundary false, Event.sleep])
    refine ⟨Event.callBoundary false :: Event.sleep :: new, ?_, ?_⟩
    · rw [setBoundaryLoop]
      simp [hros, hpre, hfail, hnew]
    · simp [countB, List.countP_cons, isBoundaryCall] at hcount ⊢
      omega

theorem moveLoop_all_fail (env : Env) (target : Pose)
    (hros : ∀ t, env.rosOk t = true) (hfail : ∀ i, env.navCall i = false) :
    ∀ r tr, ∃ new, moveLoop env target (r + 1) tr = (new, MoveExit.aborted) ∧
      countNav new = r + 1 := by
  intro r
  induction r with
  | zero =>
    intro tr
    refine ⟨[Event.callNav target false, Event.report Outcome.aborted], ?_, rfl⟩
    rw [moveLoop]
    simp [hros, hfail]
  | succ r ih =>
    intro tr
    obtain ⟨new, hnew, hcount⟩ := ih (tr ++ [Event.callNav target false, Event.sleep])
    refine ⟨Event.callNav target false :: Event.sleep :: new, ?_, ?_⟩
    · rw [moveLoop]
      simp [hros, hfail, hnew]
    · simp [countNav, List.countP_cons, isNavCall] at hcount ⊢
      omega

theorem countB_append_pair (tr : List Event) :
    countB (tr ++ [Event.callBoundary false, Event.sleep]) = countB tr + 1 := by
  simp [countB, List.countP_append, List.countP_cons, isBoundaryCall]

theorem countNav_append_pair (target : Pose) (tr : List Event) :
    countNav (tr ++ [Event.callNav target false, Event.sleep]) = countNav tr + 1 := by
  simp [countNav, List.countP_append, List.countP_cons, isNavCall]

theorem setBoundaryLoop_first_success (env : Env)
    (hros : ∀ t, env.rosOk t = true) (hpre : ∀ t, env.preempt t = false) :
    ∀ k b tr, 1 ≤ k → k ≤ b →
      (∀ i, i + 1 < k → env.boundaryCall (countB tr + i) = false) →
      env.boundaryCall (countB tr + (k - 1)) = true →
      ∃ new, setBoundaryLoop env b tr = (new, BoundExit.brk) ∧ countB new = k := by
  intro k
  induction k with
  | zero =>
    intro b tr h1
    omega
  | succ k ih =>
    intro b tr h1 hb hfails hsucc
    rcases k with _ | k0
    · have hs : env.boundaryCall (countB tr) = true := by simpa using hsucc
      refine ⟨[Event.callBoundary true], ?_, rfl⟩
      rcases b with _ | b0
      · omega
      · rw [setBoundaryLoop]
        simp [hros, hpre, hs]
    · have hf0 : env.boundaryCall (countB tr) = false := by
        simpa using hfails 0 (by omega)
      rcases b with _ | b0
      · omega
      · have hb0 : 1 ≤ b0 := by omega
        have hct := countB_append_pair tr
        obtain ⟨new, hnew, hcnt⟩ := ih b0 (tr ++ [Event.callBoundary false, Event.sleep])
          (by omega) (by omega)
          (by
            intro i hi
            rw [hct]
            have harg : countB tr + 1 + i = countB tr + (i + 1) := by omega
            rw [harg]
            exact hfails (i + 1) (by omega))
          (by
            rw [hct]
            have harg : countB tr + 1 + (k0 + 1 - 1) = countB tr + (k0 + 1 + 1 - 1) := by
              omega
            rw [harg]
            exact hsucc)
        refine ⟨Event.callBoundary false :: Event.sleep :: new, ?_, ?_⟩
        · rw [setBoundaryLoop]
          have hbz : ¬b0 = 0 := by omega
          simp [hros, hpre, hf0, hbz, hnew]
        · simp [countB, List.countP_cons, isBoundaryCall] at hcnt ⊢
          omega

theorem moveLoop_first_success (env : Env) (target : Pose)
    (hros : ∀ t, env.rosOk t = true) :
    ∀ k b tr, 1 ≤ k → k ≤ b →
      (∀ i, i + 1 < k → env.navCall (countNav tr + i) = false) →
      env.navCall (countNav tr + (k - 1)) = true →
      ∃ new, moveLoop env target b tr = (new, MoveExit.success) ∧ countNav new = k := by
  intro k
  induction k with
  | zero =>
    intro b tr h1
    omega
  | succ k ih =>
    intro b tr h1 hb hfails hsucc
    rcases k with _ | k0
    · have hs : env.navCall (countNav tr) = true := by simpa using hsucc
      refine ⟨[Event.callNav target true], ?_, rfl⟩
      rcases b with _ | b0
      · omega
      · rw [moveLoop]
        simp [hros, hs]
    · have hf0 : env.navCall (countNav tr) = false := by
        simpa using hfails 0 (by omega)
      rcases b with _ | b0
      · omega
      · have hb0 : 1 ≤ b0 := by omega
        have hct := countNav_append_pair target tr
        obtain ⟨new, hnew, hcnt⟩ := ih b0 (tr ++ [Event.callNav target false, Event.sleep])
          (by omega) (by omega)
          (by
            intro i hi
            rw [hct]
            have harg : countNav tr + 1 + i = countNav tr + (i + 1) := by omega
            rw [harg]
            exact hfails (i + 1) (by omega))
          (by
            rw [hct]
            have harg : countNav tr + 1 + (k0 + 1 - 1) = countNav tr + (k0 + 1 + 1 - 1) := by
              omega
            rw [harg]
            exact hsucc)
        refine ⟨Event.callNav target false :: Event.sleep :: new, ?_, ?_⟩
        · rw [moveLoop]
          have hbz : ¬b0 = 0 := by omega
          simp [hros, hf0, hbz, hnew]
        · simp [countNav, List.countP_cons, isNavCall] at hcnt ⊢
          omega

/-- Claim C6: for the budget-5 retry loops (boundary setting and
navigation) with no cancellation: an operation that always fails is
attempted exactly 5 times before the loop reports retry-exhausted and the
callback aborts, and an operation that first succeeds on attempt `k < 5`
is attempted exactly `k` times, the loop breaking out with success
immediately. -/
theorem retry_bound_five :
    (∀ (env : Env) (tr : List Event),
      (∀ t, env.rosOk t = true) → (∀ t, env.preempt t = false) →
      (∀ i, env.boundaryCall i = false) →
      ∃ new, setBoundaryLoop env 5 tr = (new, BoundExit.aborted) ∧ countB new = 5) ∧
    (∀ (env : Env) (tr : List Event) (k : Nat),
      1 ≤ k → k < 5 →
      (∀ t, env.rosOk t = true) → (∀ t, env.preempt t = false) →
      (∀ i, i + 1 < k → env.boundaryCall (countB tr + i) = false) →
      env.boundaryCall (countB tr + (k - 1)) = true →
      ∃ new, setBoundaryLoop env 5 tr = (new, BoundExit.brk) ∧ countB new = k) ∧
    (∀ (env : Env) (target : Pose) (tr : List Event),
      (∀ t, env.rosOk t = true) → (∀ i, env.navCall i = false) →
      ∃ new, moveLoop env target 5 tr = (new, MoveExit.aborted) ∧ countNav new = 5) ∧
    (∀ (env : Env) (target : Pose) (tr : List Event) (k : Nat),
      1 ≤ k → k < 5 →
      (∀ t, env.rosOk t = true) →
      (∀ i, i + 1 < k → env.navCall (countNav tr + i) = false) →
      env.navCall (countNav tr + (k - 1)) = true →
      ∃ new, moveLoop env target 5 tr = (new, MoveExit.success) ∧ countNav new = k) :=
  ⟨fun env tr h1 h2 h3 => setBoundaryLoop_all_fail env h1 h2 h3 4 tr,
   fun env tr k hk1 hk5 h1 h2 hf hs =>
     setBoundaryLoop_first_success env h1 h2 k 5 tr hk1 (by omega) hf hs,
   fun env target tr h1 h3 => moveLoop_all_fail env target h1 h3 4 tr,
   fun env target tr k hk1 hk5 h1 hf hs =>
     moveLoop_first_success env target h1 k 5 tr hk1 (by omega) hf hs⟩

/-- Claim C6 witness: the four parts applied to concrete oracles — one
whose calls always fail (5 attempts then abort) and one whose calls fail
once then succeed (2 attempts then success). -/
theorem retry_bound_five_w :
    (∃ new, setBoundaryLoop failEnv 5 [] = (new, BoundExit.aborted) ∧ countB new = 5) ∧
    (∃ new, setBoundaryLoop stepEnv 5 [] = (new, BoundExit.brk) ∧ countB new = 2) ∧
    (∃ new, moveLoop failEnv cCenter 5 [] = (new, MoveExit.aborted) ∧ countNav new = 5) ∧
    (∃ new, moveLoop stepEnv cCenter 5 [] = (new, MoveExit.success) ∧ countNav new = 2) :=
  ⟨retry_bound_five.1 failEnv [] (fun _ => rfl) (fun _ => rfl) (fun _ => rfl),
   retry_bound_five.2.1 stepEnv [] 2 (by omega) (by omega) (fun _ => rfl) (fun _ => rfl)
     (fun i hi => by
       have hi0 : i = 0 := by omega
       subst hi0
       rfl)
     rfl,
   retry_bound_five.2.2.1 failEnv cCenter [] (fun _ => rfl) (fun _ => rfl),
   retry_bound_five.2.2.2 stepEnv cCenter [] 2 (by omega) (by omega) (fun _ => rfl)
     (fun i hi => by
       have hi0 : i = 0 := by omega
       subst hi0
       rfl)
     rfl⟩
